import Mathlib

/-!
Shallow embedding of the user service of `game-store-api`
(handler → service → repository, a single `users` table).

Sources embedded here:
* `src/internal/models/user.go` — the `User` record, the role/status
  constants, and the request DTOs with their validation tags;
* `src/internal/service/user.service.go` — `CreateUser`, `UpdateUser`,
  `UpdateUserStatus`, `ListUsers`, `Login` and `userToResponse`;
* `src/internal/repository/user.repository.go` together with
  `src/db/queries/users.sql` and `src/db/migrations/001_initial_schema.up.sql`
  — the persistence layer, modelled as a pure store of rows.

UUIDs are modelled as `Nat` ids and timestamps as a `Nat` clock that the
store advances on insert. The external bcrypt library and the external
validation library are not part of the repository; they are modelled from
the spec where noted.
-/

namespace GameStore

/-- The domain `User` record, from `src/internal/models/user.go`.
`Role` and `Status` are string aliases in the source, so they are plain
strings here; the enumerations are separate constants. -/
structure User where
  id : Nat
  email : String
  passwordHash : String
  firstName : String
  lastName : String
  role : String
  status : String
  avatarURL : Option String
  phone : Option String
  createdAt : Nat
  updatedAt : Nat
deriving DecidableEq

/-- Constant `models.RoleGamer`. -/
def RoleGamer : String := "gamer"

/-- Constant `models.RoleAdmin`. -/
def RoleAdmin : String := "admin"

/-- Constant `models.RoleSuperAdmin`. -/
def RoleSuperAdmin : String := "super_admin"

/-- The closed role enumeration declared by the model constants in
`src/internal/models/user.go`. -/
def modelUserRoles : List String := [RoleGamer, RoleAdmin, RoleSuperAdmin]

/-- Constant `models.StatusActive`. -/
def StatusActive : String := "active"

/-- Constant `models.StatusInactive`. -/
def StatusInactive : String := "inactive"

/-- Constant `models.StatusSuspended`. -/
def StatusSuspended : String := "suspended"

/-- The closed status enumeration declared by the model constants. -/
def modelUserStatuses : List String := [StatusActive, StatusInactive, StatusSuspended]

/-- The values of the `user_role` SQL enum created by
`src/db/migrations/001_initial_schema.up.sql`:
`CREATE TYPE user_role AS ENUM ('gamer', 'admin', 'su-admin')`. -/
def dbUserRoles : List String := ["gamer", "admin", "su-admin"]

/-- The values of the `user_status` SQL enum created by the migration:
`CREATE TYPE user_status AS ENUM ('active', 'inactive', 'suspended')`. -/
def dbUserStatuses : List String := ["active", "inactive", "suspended"]

/-- Record `models.CreateUserRequest` with its JSON fields; the validation tags are
embedded in `validateCreateUserRequest` below. -/
structure CreateUserRequest where
  email : String
  password : String
  firstName : String
  lastName : String
  role : String
  phone : String
deriving DecidableEq

/-- Record `models.UpdateUserRequest`. -/
structure UpdateUserRequest where
  firstName : String
  lastName : String
  phone : String
  avatarURL : String
deriving DecidableEq

/-- Record `models.LoginRequest`. -/
structure LoginRequest where
  email : String
  password : String
deriving DecidableEq

/-- Record `models.UserResponse`, the outward shape produced by
`userService.userToResponse`: every `User` field except `PasswordHash`. -/
structure UserResponse where
  id : Nat
  email : String
  firstName : String
  lastName : String
  role : String
  status : String
  avatarURL : Option String
  phone : Option String
  createdAt : Nat
  updatedAt : Nat
deriving DecidableEq

/-- Function `userService.userToResponse` from `src/internal/service/user.service.go`. -/
def userToResponse (u : User) : UserResponse :=
  { id := u.id
    email := u.email
    firstName := u.firstName
    lastName := u.lastName
    role := u.role
    status := u.status
    avatarURL := u.avatarURL
    phone := u.phone
    createdAt := u.createdAt
    updatedAt := u.updatedAt }

/-! ### The bcrypt model

`golang.org/x/crypto/bcrypt` is an external library, not code of this
repository, so it is modelled from the spec. -/

/-- Splits a character list at every occurrence of `sep`; structural
counterpart of splitting a string on a separator character. -/
def splitOnChar (sep : Char) : List Char → List (List Char)
  | [] => [[]]
  | c :: cs =>
    if c == sep then [] :: splitOnChar sep cs
    else
      match splitOnChar sep cs with
      | [] => [[c]]
      | r :: rs => (c :: r) :: rs

/-- Parses a nonempty list of decimal digits into a `Nat`. -/
def charsToNat? (l : List Char) : Option Nat :=
  if l.isEmpty then none
  else
    l.foldl
      (fun acc c =>
        match acc with
        | none => none
        | some n => if c.isDigit then some (n * 10 + (c.toNat - 48)) else none)
      (some 0)

/-- Modelled from the spec: the salted digest at the heart of the adaptive
hash — a keyed, length-preserving scramble of the password characters.
The real bcrypt digest is a one-way function; for the properties proved
here only determinism in (salt, password) and the self-describing output
format matter. -/
def bcryptDigestChars (salt : Nat) (cs : List Char) : List Char :=
  cs.map (fun c => Char.ofNat (65 + (c.toNat + salt) % 26))

/-- Modelled from the spec: `bcrypt.GenerateFromPassword` with
`bcrypt.DefaultCost` (10). The salt is passed explicitly in place of the
library's internal randomness. The output embeds its own cost and salt
(`$2a$10$<salt>$<digest>`), so verification needs no external parameters;
the library rejects passwords longer than 72 bytes. -/
def bcryptGenerateFromPassword (salt : Nat) (password : String) : Except Unit String :=
  if 72 < password.length then .error ()
  else .ok ("$2a$10$" ++ Nat.repr salt ++ "$" ++ String.mk (bcryptDigestChars salt password.data))

/-- Modelled from the spec: `bcrypt.CompareHashAndPassword`, read as a
boolean (`true` = the password verifies). It parses the cost and salt back
out of the hash and recomputes the digest. -/
def bcryptCompareHashAndPassword (hash password : String) : Bool :=
  match splitOnChar '$' hash.data with
  | [[], ['2', 'a'], ['1', '0'], saltCs, digestCs] =>
    match charsToNat? saltCs with
    | some salt =>
      decide (password.length ≤ 72) && (bcryptDigestChars salt password.data == digestCs)
    | none => false
  | _ => false

/-! ### The persistence layer

A `DB` is the `users` table plus the id generator and a clock supplying
the `created_at` / `updated_at` defaults. Operations follow
`src/db/queries/users.sql`, the constraints of the migration, and the
row-to-model conversion of `src/internal/repository/user.repository.go`
(which maps `sql.ErrNoRows` to an absent value). -/

structure DB where
  users : List User
  nextId : Nat
  clock : Nat
deriving DecidableEq

/-- The empty store. -/
def DB.empty : DB := { users := [], nextId := 0, clock := 0 }

/-- Query `GetUserByEmail`: `SELECT * FROM users WHERE email = $1 LIMIT 1`,
with `sql.ErrNoRows` translated to `none` by the repository. -/
def DB.getByEmail (db : DB) (email : String) : Option User :=
  db.users.find? (fun u => u.email == email)

/-- Query `GetUserByID`: `SELECT * FROM users WHERE id = $1 LIMIT 1`. -/
def DB.getById (db : DB) (id : Nat) : Option User :=
  db.users.find? (fun u => u.id == id)

/-- Row built by `CreateUser`: `INSERT INTO users (email, password_hash, first_name,
last_name, role, phone) VALUES … RETURNING *`. The columns not inserted
take their schema defaults: `status = 'active'`, `avatar_url = NULL`,
`created_at = updated_at = NOW()`. -/
def insertedRow (db : DB) (email passwordHash firstName lastName role : String)
    (phone : Option String) : User :=
  { id := db.nextId, email := email, passwordHash := passwordHash,
    firstName := firstName, lastName := lastName, role := role,
    status := "active", avatarURL := none, phone := phone,
    createdAt := db.clock, updatedAt := db.clock }

/-- Query `CreateUser` proper: the insert returning the new row; it fails when the
role is not a `user_role` enum value or when the `UNIQUE` email constraint
is violated. -/
def DB.repoCreate (db : DB) (email passwordHash firstName lastName role : String)
    (phone : Option String) : Except Unit (User × DB) :=
  if dbUserRoles.contains role && !(db.users.any (fun u => u.email == email)) then
    let u : User := insertedRow db email passwordHash firstName lastName role phone
    .ok (u, { users := db.users ++ [u], nextId := db.nextId + 1, clock := db.clock + 1 })
  else .error ()

/-- The `SET` clause of the `UpdateUser` query, applied to one row. -/
def setNamePhoneAvatar (firstName lastName : String) (phone avatarURL : Option String) (v : User) : User :=
  { v with firstName := firstName, lastName := lastName, phone := phone, avatarURL := avatarURL }

/-- Query `UpdateUser`: `UPDATE users SET first_name = $2, last_name = $3,
phone = $4, avatar_url = $5 WHERE id = $1 RETURNING *`. With no matching
row the query yields `sql.ErrNoRows`, which the repository surfaces as an
error. -/
def DB.repoUpdate (db : DB) (id : Nat) (firstName lastName : String)
    (phone avatarURL : Option String) : Except Unit (User × DB) :=
  match db.getById id with
  | none => .error ()
  | some u =>
    .ok (setNamePhoneAvatar firstName lastName phone avatarURL u,
         { db with
           users := db.users.map (fun v =>
             if v.id == id then setNamePhoneAvatar firstName lastName phone avatarURL v
             else v) })

/-- Query `UpdateUserStatus`: `UPDATE users SET status = $2 WHERE id = $1`;
the insert of a string outside the `user_status` enum fails. -/
def DB.repoUpdateStatus (db : DB) (id : Nat) (status : String) : Except Unit DB :=
  if dbUserStatuses.contains status then
    .ok { db with
          users := db.users.map (fun v =>
            if v.id == id then { v with status := status } else v) }
  else .error ()

/-- The `WHERE ($1::user_role IS NULL OR role = $1) AND ($2::user_status IS
NULL OR status = $2)` filter of `ListUsers`. -/
def matchesFilters (role status : Option String) (u : User) : Bool :=
  (match role with | none => true | some r => u.role == r) &&
  (match status with | none => true | some s => u.status == s)

/-- The `ORDER BY created_at DESC` order: newest first. -/
def createdDesc (a b : User) : Prop := b.createdAt ≤ a.createdAt

instance : DecidableRel createdDesc :=
  fun a b => inferInstanceAs (Decidable (b.createdAt ≤ a.createdAt))

instance : IsTotal User createdDesc :=
  ⟨fun a b => Nat.le_total b.createdAt a.createdAt⟩

instance : IsTrans User createdDesc :=
  ⟨fun _ _ _ hab hbc => Nat.le_trans hbc hab⟩

/-- The `$1::user_role` and `$2::user_status` casts of the `ListUsers`
query: a present filter value outside the corresponding enum of the
migration fails the cast (an SQL error); an absent filter casts a NULL. -/
def filterCastsOk (role status : Option String) : Bool :=
  (match role with | none => true | some r => dbUserRoles.contains r) &&
  (match status with | none => true | some s => dbUserStatuses.contains s)

/-- Query `ListUsers`: `SELECT * FROM users WHERE … ORDER BY created_at DESC
LIMIT $3 OFFSET $4`. A filter value that cannot be cast to its enum, a
negative `LIMIT`, or a negative `OFFSET` is an SQL error. -/
def DB.repoList (db : DB) (role status : Option String) (limit offset : Int) :
    Except Unit (List User) :=
  if !(filterCastsOk role status) then .error ()
  else if limit < 0 ∨ offset < 0 then .error ()
  else
    .ok ((((db.users.filter (matchesFilters role status)).insertionSort
        createdDesc).drop offset.toNat).take limit.toNat)

/-! ### The service layer, from `src/internal/service/user.service.go` -/

/-- The error kinds the service produces; in the source they are error
values distinguished by message (`"user with this email already exists"`,
`"user not found"`, `"invalid credentials"`, `"user account is inactive"`,
and wrapped internal errors). -/
inductive ServiceError where
  | alreadyExists
  | notFound
  | invalidCredentials
  | accountInactive
  | internal
deriving DecidableEq

deriving instance DecidableEq for Except

/-- The outcome of one `CreateUser` call: its result, the store afterwards,
and whether the repository `Create` was invoked. -/
structure CreateOutcome where
  result : Except ServiceError UserResponse
  db : DB
  createCalled : Bool
deriving DecidableEq

/-- Service operation `userService.CreateUser`. `lookupFails` injects an I/O failure of the
initial `GetByEmail` (the repository may fail independently of the store's
contents); `salt` stands for the randomness bcrypt draws internally. The
source checks the lookup error, then the duplicate, then hashes, then
inserts; each failure is returned before the insert is attempted. -/
def createUser (db : DB) (lookupFails : Bool) (salt : Nat) (req : CreateUserRequest) :
    CreateOutcome :=
  if lookupFails then ⟨.error .internal, db, false⟩
  else
    match db.getByEmail req.email with
    | some _ => ⟨.error .alreadyExists, db, false⟩
    | none =>
      match bcryptGenerateFromPassword salt req.password with
      | .error _ => ⟨.error .internal, db, false⟩
      | .ok hashed =>
        match db.repoCreate req.email hashed req.firstName req.lastName req.role
            (if req.phone == "" then none else some req.phone) with
        | .error _ => ⟨.error .internal, db, true⟩
        | .ok (u, db2) => ⟨.ok (userToResponse u), db2, true⟩

/-- Service operation `userService.Login`: look up by email (absent → invalid credentials),
compare the password against the stored hash (mismatch → invalid
credentials), then check the status (non-active → account inactive). -/
def login (db : DB) (req : LoginRequest) : Except ServiceError UserResponse :=
  match db.getByEmail req.email with
  | none => .error .invalidCredentials
  | some u =>
    if !(bcryptCompareHashAndPassword u.passwordHash req.password) then
      .error .invalidCredentials
    else if u.status != StatusActive then
      .error .accountInactive
    else
      .ok (userToResponse u)

/-- Service operation `userService.UpdateUser`: fetch the user (absent → not found), copy the
request's first and last name over it, copy phone and avatar only when the
request string is non-empty, then run the repository update. -/
def updateUser (db : DB) (id : Nat) (req : UpdateUserRequest) :
    Except ServiceError (UserResponse × DB) :=
  match db.getById id with
  | none => .error .notFound
  | some existing =>
    match db.repoUpdate id req.firstName req.lastName
        (if req.phone == "" then existing.phone else some req.phone)
        (if req.avatarURL == "" then existing.avatarURL else some req.avatarURL) with
    | .error _ => .error .internal
    | .ok (u, db2) => .ok (userToResponse u, db2)

/-- Service operation `userService.UpdateUserStatus`: fetch the user (absent → not found),
then run the repository status update. -/
def updateUserStatus (db : DB) (id : Nat) (status : String) :
    Except ServiceError DB :=
  match db.getById id with
  | none => .error .notFound
  | some _ =>
    match db.repoUpdateStatus id status with
    | .error _ => .error .internal
    | .ok db2 => .ok db2

/-- Service operation `userService.ListUsers`: `offset := (page - 1) * limit`, then the
repository list, mapping each row to a response. -/
def listUsers (db : DB) (role status : Option String) (page limit : Int) :
    Except ServiceError (List UserResponse) :=
  match db.repoList role status limit ((page - 1) * limit) with
  | .error _ => .error .internal
  | .ok users => .ok (users.map userToResponse)

/-! ### Request validation

The tags on `models.CreateUserRequest` are
`email: required,email`, `password: required,min=8`,
`firstName/lastName: required,min=2,max=100`,
`role: required,oneof=buyer seller admin`,
`phone: omitempty,min=10`; the handler runs them through the external
validation library before calling the service. -/

/-- Modelled from the spec: the well-formed-email check performed by the
external validation library. A single `@` separating a nonempty local part
from a nonempty domain containing a dot suffices for the concrete inputs
used here. -/
def wellFormedEmail (s : String) : Bool :=
  match splitOnChar '@' s.data with
  | [lp, dom] => !lp.isEmpty && !dom.isEmpty && dom.contains '.'
  | _ => false

/-- The `oneof` list of the `role` tag: `oneof=buyer seller admin`. -/
def createRoleOneof : List String := ["buyer", "seller", "admin"]

/-- The validation of `models.CreateUserRequest` per its tags. -/
def validateCreateUserRequest (req : CreateUserRequest) : Bool :=
  wellFormedEmail req.email &&
  decide (8 ≤ req.password.length) &&
  decide (2 ≤ req.firstName.length) && decide (req.firstName.length ≤ 100) &&
  decide (2 ≤ req.lastName.length) && decide (req.lastName.length ≤ 100) &&
  createRoleOneof.contains req.role &&
  (req.phone == "" || decide (10 ≤ req.phone.length))

/-! ### Supporting lemmas about the store -/

theorem any_eq_false_of_find?_eq_none {p : User → Bool} {l : List User}
    (h : l.find? p = none) : l.any p = false :=
  List.any_eq_false.mpr (List.find?_eq_none.mp h)

/-- A row-local update commutes with the id lookup: updating every row whose
id matches and then looking the id up returns the updated image of the row
the lookup found before. -/
theorem find?_id_map_update {l : List User} {id : Nat} {u : User} (f : User → User)
    (hf : ∀ v, (f v).id = v.id)
    (h : l.find? (fun v => v.id == id) = some u) :
    (l.map (fun v => if v.id = id then f v else v)).find? (fun v => v.id == id) =
      some (f u) := by
  induction l with
  | nil => simp at h
  | cons a t ih =>
    by_cases ha : a.id = id
    · have hb : (a.id == id) = true := beq_iff_eq.mpr ha
      rw [@List.find?_cons_of_pos User (fun v => v.id == id) a t hb] at h
      obtain rfl : a = u := Option.some.inj h
      have hfa : ((f a).id == id) = true := by rw [hf a]; exact hb
      have step :
          (a :: t).map (fun v => if v.id = id then f v else v) =
            f a :: t.map (fun v => if v.id = id then f v else v) := by
        rw [List.map_cons, if_pos ha]
      rw [step]
      exact @List.find?_cons_of_pos User (fun v => v.id == id) (f a) _ hfa
    · have hb : ¬(a.id == id) = true := by simpa using ha
      rw [@List.find?_cons_of_neg User (fun v => v.id == id) a t hb] at h
      have step :
          (a :: t).map (fun v => if v.id = id then f v else v) =
            a :: t.map (fun v => if v.id = id then f v else v) := by
        rw [List.map_cons, if_neg ha]
      rw [step, @List.find?_cons_of_neg User (fun v => v.id == id) a _ hb]
      exact ih h

/-- Rows whose id differs from the updated id are untouched by a row-local
update. -/
theorem mem_map_update_of_id_ne {l : List User} {id : Nat} (f : User → User) {v : User}
    (hv : v ∈ l) (hne : v.id ≠ id) :
    v ∈ l.map (fun w => if w.id = id then f w else w) := by
  have hm := List.mem_map_of_mem (fun w => if w.id = id then f w else w) hv
  simpa [hne] using hm

/-- Appending a fresh row to a store in which an email lookup failed makes
the lookup find exactly that row (when its email matches). -/
theorem find?_email_append_of_none {l : List User} {e : String} (u : User)
    (h : l.find? (fun x => x.email == e) = none) :
    (l ++ [u]).find? (fun x => x.email == e) =
      (if u.email == e then some u else none) := by
  rw [List.find?_append, h, Option.none_or]
  by_cases hu : (u.email == e) = true
  · rw [if_pos hu]
    exact @List.find?_cons_of_pos User (fun x => x.email == e) u [] hu
  · rw [if_neg hu, @List.find?_cons_of_neg User (fun x => x.email == e) u [] hu,
      List.find?_nil]

/-! ### C1 — login error discipline -/

/-- C1:  For every login request, `Login` fails with `InvalidCredentials`
when no user has the given email, fails with the same `InvalidCredentials`
error kind when a user exists but the password does not verify against the
stored hash (whatever the account's status, so the two failure causes are
indistinguishable and a wrong password on a non-active account yields
`InvalidCredentials`), fails with `AccountInactive` when the password
verifies but the user's status is not `active`, and otherwise returns the
stored user. -/
theorem login_checks_credentials_then_status (db : DB) (req : LoginRequest) :
    (db.getByEmail req.email = none → login db req = .error .invalidCredentials)
    ∧ (∀ u, db.getByEmail req.email = some u →
        bcryptCompareHashAndPassword u.passwordHash req.password = false →
        login db req = .error .invalidCredentials)
    ∧ (∀ u, db.getByEmail req.email = some u →
        bcryptCompareHashAndPassword u.passwordHash req.password = true →
        u.status ≠ StatusActive →
        login db req = .error .accountInactive)
    ∧ (∀ u, db.getByEmail req.email = some u →
        bcryptCompareHashAndPassword u.passwordHash req.password = true →
        u.status = StatusActive →
        login db req = .ok (userToResponse u)) := by
  refine ⟨fun h => by simp [login, h], fun u hu hc => by simp [login, hu, hc],
    fun u hu hc hs => ?_, fun u hu hc hs => ?_⟩
  · simp [login, hu, hc, hs]
  · simp [login, hu, hc, hs]

/-- Witness store for C1: one active user whose stored hash is the bcrypt
model's hash of "password1" under salt 3. -/
def dbC1 : DB :=
  { users := [{ id := 1, email := "a@b.com", passwordHash := "$2a$10$3$LWOOSKNZA",
                firstName := "Jo", lastName := "Doe", role := "gamer",
                status := "active", avatarURL := none, phone := none,
                createdAt := 0, updatedAt := 0 }],
    nextId := 2, clock := 1 }

theorem login_checks_credentials_then_status_witness :
    login dbC1 { email := "a@b.com", password := "password1" } =
      .ok (userToResponse
        { id := 1, email := "a@b.com", passwordHash := "$2a$10$3$LWOOSKNZA",
          firstName := "Jo", lastName := "Doe", role := "gamer",
          status := "active", avatarURL := none, phone := none,
          createdAt := 0, updatedAt := 0 }) :=
  (login_checks_credentials_then_status dbC1
      { email := "a@b.com", password := "password1" }).2.2.2 _
    (by decide) (by decide) (by decide)

/-! ### C4, C5 — update semantics -/

/-- What a successful `UpdateUser` computes: the row found by the id lookup,
with the four writable columns replaced, both returned and written back to
every row with that id. -/
theorem updateUser_ok_elim {db : DB} {id : Nat} {req : UpdateUserRequest}
    {resp : UserResponse} {db2 : DB} {u : User}
    (hu : db.getById id = some u)
    (h : updateUser db id req = .ok (resp, db2)) :
    resp = userToResponse (setNamePhoneAvatar req.firstName req.lastName
        (if req.phone = "" then u.phone else some req.phone)
        (if req.avatarURL = "" then u.avatarURL else some req.avatarURL) u) ∧
    db2 = { db with users := db.users.map (fun v =>
        if v.id = id then setNamePhoneAvatar req.firstName req.lastName
          (if req.phone = "" then u.phone else some req.phone)
          (if req.avatarURL = "" then u.avatarURL else some req.avatarURL) v
        else v) } := by
  simp [updateUser, DB.repoUpdate, hu] at h
  exact ⟨h.1.symm, h.2.symm⟩

/-- C4:  For every existing user and every update request, `UpdateUser`
overwrites the stored first and last name unconditionally with the request's
values, overwrites phone and avatar URL only when the corresponding request
field is a non-empty string, and leaves the previously stored phone/avatar
value unchanged when the request field is empty; the returned response is
the updated stored row. -/
theorem updateUser_presence_overwrite (db : DB) (id : Nat)
    (req : UpdateUserRequest) (u : User) (resp : UserResponse) (db2 : DB)
    (hu : db.getById id = some u)
    (h : updateUser db id req = .ok (resp, db2)) :
    ∃ u2, db2.getById id = some u2 ∧
      u2.firstName = req.firstName ∧ u2.lastName = req.lastName ∧
      (req.phone = "" → u2.phone = u.phone) ∧
      (req.phone ≠ "" → u2.phone = some req.phone) ∧
      (req.avatarURL = "" → u2.avatarURL = u.avatarURL) ∧
      (req.avatarURL ≠ "" → u2.avatarURL = some req.avatarURL) ∧
      resp = userToResponse u2 := by
  obtain ⟨hresp, hdb⟩ := updateUser_ok_elim hu h
  refine ⟨setNamePhoneAvatar req.firstName req.lastName
      (if req.phone = "" then u.phone else some req.phone)
      (if req.avatarURL = "" then u.avatarURL else some req.avatarURL) u,
    ?_, rfl, rfl, ?_, ?_, ?_, ?_, hresp⟩
  · rw [hdb]
    exact find?_id_map_update _ (fun _ => rfl) hu
  · intro hp; simp [setNamePhoneAvatar, hp]
  · intro hp; simp [setNamePhoneAvatar, hp]
  · intro hp; simp [setNamePhoneAvatar, hp]
  · intro hp; simp [setNamePhoneAvatar, hp]

/-- C4 witness data: a stored user with a phone and no avatar, updated with
an empty phone (kept) and a non-empty avatar (overwritten). -/
def uC4 : User :=
  { id := 1, email := "a@b.com", passwordHash := "h", firstName := "Jo",
    lastName := "Doe", role := "gamer", status := "active", avatarURL := none,
    phone := some "0911223344", createdAt := 0, updatedAt := 0 }

def dbC4 : DB := { users := [uC4], nextId := 2, clock := 1 }

def reqC4 : UpdateUserRequest :=
  { firstName := "Ann", lastName := "Lee", phone := "", avatarURL := "http://x.y/a.png" }

def uC4b : User :=
  { uC4 with firstName := "Ann", lastName := "Lee", avatarURL := some "http://x.y/a.png" }

def dbC4b : DB := { users := [uC4b], nextId := 2, clock := 1 }

theorem updateUser_presence_overwrite_witness :
    ∃ u2, dbC4b.getById 1 = some u2 ∧
      u2.firstName = reqC4.firstName ∧ u2.lastName = reqC4.lastName ∧
      (reqC4.phone = "" → u2.phone = uC4.phone) ∧
      (reqC4.phone ≠ "" → u2.phone = some reqC4.phone) ∧
      (reqC4.avatarURL = "" → u2.avatarURL = uC4.avatarURL) ∧
      (reqC4.avatarURL ≠ "" → u2.avatarURL = some reqC4.avatarURL) ∧
      userToResponse uC4b = userToResponse u2 :=
  updateUser_presence_overwrite dbC4 1 reqC4 uC4 (userToResponse uC4b) dbC4b
    (by decide) (by decide)

/-- C5:  For every existing user and every update request, `UpdateUser`
leaves the stored role, status, email and password hash (and the id)
unchanged, whatever the request contains; rows with a different id are
untouched. -/
theorem updateUser_preserves_identity_fields (db : DB) (id : Nat)
    (req : UpdateUserRequest) (u : User) (resp : UserResponse) (db2 : DB)
    (hu : db.getById id = some u)
    (h : updateUser db id req = .ok (resp, db2)) :
    ∃ u2, db2.getById id = some u2 ∧
      u2.id = u.id ∧ u2.email = u.email ∧ u2.passwordHash = u.passwordHash ∧
      u2.role = u.role ∧ u2.status = u.status ∧
      resp = userToResponse u2 ∧
      (∀ v ∈ db.users, v.id ≠ id → v ∈ db2.users) := by
  obtain ⟨hresp, hdb⟩ := updateUser_ok_elim hu h
  refine ⟨setNamePhoneAvatar req.firstName req.lastName
      (if req.phone = "" then u.phone else some req.phone)
      (if req.avatarURL = "" then u.avatarURL else some req.avatarURL) u,
    ?_, rfl, rfl, rfl, rfl, rfl, hresp, ?_⟩
  · rw [hdb]
    exact find?_id_map_update _ (fun _ => rfl) hu
  · intro v hv hne
    rw [hdb]
    exact mem_map_update_of_id_ne _ hv hne

/-- C5 witness data: the same update shape on an admin user, checking the
identity fields survive. -/
def uC5 : User :=
  { id := 7, email := "c@d.io", passwordHash := "hash7", firstName := "Bo",
    lastName := "Kim", role := "admin", status := "suspended", avatarURL := none,
    phone := none, createdAt := 3, updatedAt := 4 }

def dbC5 : DB := { users := [uC5], nextId := 8, clock := 5 }

def reqC5 : UpdateUserRequest :=
  { firstName := "Al", lastName := "Ma", phone := "0123456789", avatarURL := "" }

def uC5b : User :=
  { uC5 with firstName := "Al", lastName := "Ma", phone := some "0123456789" }

def dbC5b : DB := { users := [uC5b], nextId := 8, clock := 5 }

theorem updateUser_preserves_identity_fields_witness :
    ∃ u2, dbC5b.getById 7 = some u2 ∧
      u2.id = uC5.id ∧ u2.email = uC5.email ∧ u2.passwordHash = uC5.passwordHash ∧
      u2.role = uC5.role ∧ u2.status = uC5.status ∧
      userToResponse uC5b = userToResponse u2 ∧
      (∀ v ∈ dbC5.users, v.id ≠ 7 → v ∈ dbC5b.users) :=
  updateUser_preserves_identity_fields dbC5 7 reqC5 uC5 (userToResponse uC5b) dbC5b
    (by decide) (by decide)

/-! ### C6 — status updates -/

/-- C6:  `UpdateUserStatus` fails with `NotFound` for every id matching no
persisted user; for every existing id and every status value of the
enumeration it unconditionally sets that user's status to the given value
(no transition restriction: the stored status is arbitrary) and changes only
the status field, leaving all other fields of that user — and all other
users — unchanged. -/
theorem updateUserStatus_only_status (db : DB) (id : Nat) (status : String) :
    (db.getById id = none → updateUserStatus db id status = .error .notFound)
    ∧ (∀ u, db.getById id = some u → status ∈ dbUserStatuses →
        ∃ db2, updateUserStatus db id status = .ok db2 ∧
          (∃ u2, db2.getById id = some u2 ∧ u2.status = status ∧
            u2.id = u.id ∧ u2.email = u.email ∧ u2.passwordHash = u.passwordHash ∧
            u2.firstName = u.firstName ∧ u2.lastName = u.lastName ∧
            u2.role = u.role ∧ u2.avatarURL = u.avatarURL ∧ u2.phone = u.phone ∧
            u2.createdAt = u.createdAt ∧ u2.updatedAt = u.updatedAt) ∧
          (∀ v ∈ db.users, v.id ≠ id → v ∈ db2.users)) := by
  constructor
  · intro h; simp [updateUserStatus, h]
  · intro u hu hs
    refine ⟨{ db with users := db.users.map (fun v =>
        if v.id = id then { v with status := status } else v) }, ?_, ?_, ?_⟩
    · simp [updateUserStatus, hu, DB.repoUpdateStatus, hs]
    · exact ⟨{ u with status := status },
        find?_id_map_update _ (fun _ => rfl) hu,
        rfl, rfl, rfl, rfl, rfl, rfl, rfl, rfl, rfl, rfl, rfl⟩
    · intro v hv hne
      exact mem_map_update_of_id_ne _ hv hne

/-- C6 witness data: an active user moved straight to `suspended`. -/
def uC6 : User :=
  { id := 2, email := "e@f.gh", passwordHash := "hash2", firstName := "Cy",
    lastName := "Ng", role := "gamer", status := "active", avatarURL := none,
    phone := none, createdAt := 9, updatedAt := 9 }

def dbC6 : DB := { users := [uC6], nextId := 3, clock := 10 }

theorem updateUserStatus_only_status_witness :
    ∃ db2, updateUserStatus dbC6 2 "suspended" = .ok db2 ∧
      (∃ u2, db2.getById 2 = some u2 ∧ u2.status = "suspended" ∧
        u2.id = uC6.id ∧ u2.email = uC6.email ∧ u2.passwordHash = uC6.passwordHash ∧
        u2.firstName = uC6.firstName ∧ u2.lastName = uC6.lastName ∧
        u2.role = uC6.role ∧ u2.avatarURL = uC6.avatarURL ∧ u2.phone = uC6.phone ∧
        u2.createdAt = uC6.createdAt ∧ u2.updatedAt = uC6.updatedAt) ∧
      (∀ v ∈ dbC6.users, v.id ≠ 2 → v ∈ db2.users) :=
  (updateUserStatus_only_status dbC6 2 "suspended").2 uC6 (by decide) (by decide)

/-! ### C2, C9, C10 — creation -/

/-- What a successful `CreateUser` computes: the password hashed, the email
confirmed fresh, and the inserted row both returned and appended to the
store. -/
theorem createUser_ok_elim {db : DB} {salt : Nat} {req : CreateUserRequest}
    {resp : UserResponse}
    (h : (createUser db false salt req).result = .ok resp) :
    ∃ hashed,
      bcryptGenerateFromPassword salt req.password = .ok hashed ∧
      db.getByEmail req.email = none ∧
      resp = userToResponse (insertedRow db req.email hashed req.firstName
        req.lastName req.role (if req.phone = "" then none else some req.phone)) ∧
      (createUser db false salt req).db =
        { users := db.users ++ [insertedRow db req.email hashed req.firstName
            req.lastName req.role (if req.phone = "" then none else some req.phone)],
          nextId := db.nextId + 1, clock := db.clock + 1 } := by
  cases hge : db.getByEmail req.email with
  | some u => exfalso; simp [createUser, hge] at h
  | none =>
    cases hb : bcryptGenerateFromPassword salt req.password with
    | error e => exfalso; simp [createUser, hge, hb] at h
    | ok hashed =>
      have hany : db.users.any (fun u => u.email == req.email) = false :=
        any_eq_false_of_find?_eq_none hge
      by_cases hrole : req.role ∈ dbUserRoles
      · refine ⟨hashed, rfl, rfl, ?_, ?_⟩
        · have := h
          simp [createUser, hge, hb, DB.repoCreate, hany, hrole] at this
          exact this.symm
        · simp [createUser, hge, hb, DB.repoCreate, hany, hrole]
      · exfalso
        simp [createUser, hge, hb, DB.repoCreate, hany, hrole] at h

/-- A store in which the email lookup already finds a row makes
`CreateUser` fail with the duplicate-email error and leave the store as is. -/
theorem createUser_of_getByEmail_some {dbx : DB} {s : Nat} {r : CreateUserRequest}
    {u : User} (hu : dbx.getByEmail r.email = some u) :
    (createUser dbx false s r).result = .error .alreadyExists ∧
    (createUser dbx false s r).db = dbx := by
  constructor <;> simp [createUser, hu]

/-- C2:  A create request whose email equals the email of an
already-persisted user fails with `AlreadyExists` (and persists nothing);
in particular, after a successful `CreateUser`, a second call with the same
email fails with `AlreadyExists`. -/
theorem createUser_rejects_taken_email (db : DB) (salt salt2 : Nat)
    (req req2 : CreateUserRequest) :
    (∀ v, v ∈ db.users → v.email = req.email →
      (createUser db false salt req).result = .error .alreadyExists ∧
      (createUser db false salt req).db = db)
    ∧ (∀ resp, (createUser db false salt req).result = .ok resp →
        req2.email = req.email →
        (createUser (createUser db false salt req).db false salt2 req2).result =
          .error .alreadyExists) := by
  constructor
  · intro v hv he
    have hsome : (db.users.find? (fun u => u.email == req.email)).isSome :=
      List.find?_isSome.mpr ⟨v, hv, by simp [he]⟩
    cases hfind : db.users.find? (fun u => u.email == req.email) with
    | none => rw [hfind] at hsome; simp at hsome
    | some u => exact createUser_of_getByEmail_some hfind
  · intro resp h he
    obtain ⟨hashed, hb, hge, hresp, hdb⟩ := createUser_ok_elim h
    have hget : (createUser db false salt req).db.getByEmail req2.email =
        some (insertedRow db req.email hashed req.firstName req.lastName req.role
          (if req.phone = "" then none else some req.phone)) := by
      rw [hdb, he]
      simp only [DB.getByEmail]
      rw [find?_email_append_of_none _ hge]
      simp [insertedRow]
    exact (createUser_of_getByEmail_some hget).1

/-- C2 witness data: the same request issued twice against an empty store. -/
def reqC2 : CreateUserRequest :=
  { email := "g@h.ij", password := "password1", firstName := "Jo",
    lastName := "Doe", role := "gamer", phone := "" }

theorem createUser_rejects_taken_email_witness :
    (createUser (createUser DB.empty false 0 reqC2).db false 0 reqC2).result =
      .error .alreadyExists :=
  (createUser_rejects_taken_email DB.empty 0 0 reqC2 reqC2).2
    (userToResponse
      { id := 0, email := "g@h.ij", passwordHash := "$2a$10$0$ITLLPHKWX",
        firstName := "Jo", lastName := "Doe", role := "gamer",
        status := "active", avatarURL := none, phone := none,
        createdAt := 0, updatedAt := 0 })
    (by decide) rfl

/-- C9:  Whenever `CreateUser` returns an error before reaching the
insert — the email lookup failed, a user with that email already exists, or
password hashing failed — the repository `Create` is not called and the
persisted state is unchanged. -/
theorem createUser_early_failures_leave_store (db : DB) (lookupFails : Bool)
    (salt : Nat) (req : CreateUserRequest) :
    (lookupFails = true →
      (createUser db lookupFails salt req).result = .error .internal ∧
      (createUser db lookupFails salt req).createCalled = false ∧
      (createUser db lookupFails salt req).db = db)
    ∧ (∀ u, lookupFails = false → db.getByEmail req.email = some u →
        (createUser db lookupFails salt req).result = .error .alreadyExists ∧
        (createUser db lookupFails salt req).createCalled = false ∧
        (createUser db lookupFails salt req).db = db)
    ∧ (lookupFails = false → db.getByEmail req.email = none →
        bcryptGenerateFromPassword salt req.password = .error () →
        (createUser db lookupFails salt req).result = .error .internal ∧
        (createUser db lookupFails salt req).createCalled = false ∧
        (createUser db lookupFails salt req).db = db) := by
  refine ⟨fun hl => ?_, fun u hl hu => ?_, fun hl hn hb => ?_⟩
  · subst hl; exact ⟨rfl, rfl, rfl⟩
  · subst hl
    exact ⟨by simp [createUser, hu], by simp [createUser, hu], by simp [createUser, hu]⟩
  · subst hl
    exact ⟨by simp [createUser, hn, hb], by simp [createUser, hn, hb],
      by simp [createUser, hn, hb]⟩

/-- C9 witness data: a store with one user, hit by a failing lookup. -/
def dbC9 : DB :=
  { users := [{ id := 4, email := "k@l.mn", passwordHash := "hash4",
                firstName := "Di", lastName := "Wu", role := "admin",
                status := "active", avatarURL := none, phone := none,
                createdAt := 2, updatedAt := 2 }],
    nextId := 5, clock := 3 }

def reqC9 : CreateUserRequest :=
  { email := "n@o.pq", password := "password1", firstName := "Ed",
    lastName := "Yu", role := "gamer", phone := "" }

theorem createUser_early_failures_leave_store_witness :
    (createUser dbC9 true 0 reqC9).result = .error .internal ∧
    (createUser dbC9 true 0 reqC9).createCalled = false ∧
    (createUser dbC9 true 0 reqC9).db = dbC9 :=
  (createUser_early_failures_leave_store dbC9 true 0 reqC9).1 rfl

/-- C10:  Every successful `CreateUser` yields a user whose avatar URL is
absent (the create path never sets one) and whose phone is present exactly
when the request's phone is a non-empty string — both on the returned
response and on the persisted row. -/
theorem createUser_avatar_absent_phone_by_presence (db : DB) (salt : Nat)
    (req : CreateUserRequest) (resp : UserResponse)
    (h : (createUser db false salt req).result = .ok resp) :
    resp.avatarURL = none ∧
    (req.phone = "" → resp.phone = none) ∧
    (req.phone ≠ "" → resp.phone = some req.phone) ∧
    (∃ u2, (createUser db false salt req).db.getByEmail req.email = some u2 ∧
      u2.avatarURL = none ∧
      (req.phone = "" → u2.phone = none) ∧
      (req.phone ≠ "" → u2.phone = some req.phone)) := by
  obtain ⟨hashed, hb, hge, hresp, hdb⟩ := createUser_ok_elim h
  subst hresp
  refine ⟨rfl, fun hp => by simp [userToResponse, insertedRow, hp],
    fun hp => by simp [userToResponse, insertedRow, hp], ?_⟩
  refine ⟨insertedRow db req.email hashed req.firstName req.lastName req.role
      (if req.phone = "" then none else some req.phone), ?_, rfl, ?_, ?_⟩
  · rw [hdb]
    simp only [DB.getByEmail]
    rw [find?_email_append_of_none _ hge]
    simp [insertedRow]
  · intro hp; simp [insertedRow, hp]
  · intro hp; simp [insertedRow, hp]

/-- C10 witness data: a create with a non-empty phone. -/
def reqC10 : CreateUserRequest :=
  { email := "r@s.tu", password := "password1", firstName := "Fi",
    lastName := "Za", role := "admin", phone := "0911223344" }

theorem createUser_avatar_absent_phone_by_presence_witness :
    (userToResponse
        { id := 0, email := "r@s.tu", passwordHash := "$2a$10$0$ITLLPHKWX",
          firstName := "Fi", lastName := "Za", role := "admin",
          status := "active", avatarURL := none, phone := some "0911223344",
          createdAt := 0, updatedAt := 0 }).avatarURL = none ∧
    (reqC10.phone = "" →
      (userToResponse
        { id := 0, email := "r@s.tu", passwordHash := "$2a$10$0$ITLLPHKWX",
          firstName := "Fi", lastName := "Za", role := "admin",
          status := "active", avatarURL := none, phone := some "0911223344",
          createdAt := 0, updatedAt := 0 }).phone = none) ∧
    (reqC10.phone ≠ "" →
      (userToResponse
        { id := 0, email := "r@s.tu", passwordHash := "$2a$10$0$ITLLPHKWX",
          firstName := "Fi", lastName := "Za", role := "admin",
          status := "active", avatarURL := none, phone := some "0911223344",
          createdAt := 0, updatedAt := 0 }).phone = some reqC10.phone) ∧
    (∃ u2, (createUser DB.empty false 0 reqC10).db.getByEmail reqC10.email = some u2 ∧
      u2.avatarURL = none ∧
      (reqC10.phone = "" → u2.phone = none) ∧
      (reqC10.phone ≠ "" → u2.phone = some reqC10.phone)) :=
  createUser_avatar_absent_phone_by_presence DB.empty 0 reqC10 _ (by decide)

/-! ### C3, C8 — the role-enumeration mismatch

The model constants declare the roles `gamer`, `admin`, `super_admin`; the
request validation tag accepts `oneof=buyer seller admin`; the migration's
`user_role` enum holds `('gamer', 'admin', 'su-admin')`. These three sets
disagree, and the disagreement is observable: a request that passes
validation can be impossible to insert, and the model constant
`RoleSuperAdmin` names a role the schema cannot store. -/

/-- C3 failing input:  The request below passes the code's validation
(the `role` tag `oneof=buyer seller admin` accepts `"buyer"`), its email is
not taken in the empty store, yet `CreateUser` fails with the internal error
instead of succeeding: `'buyer'` is not a `user_role` enum value, so the
insert is rejected — and the store is left unchanged. -/
theorem createUser_fails_on_validation_accepted_role :
    validateCreateUserRequest
        { email := "a@b.com", password := "password1", firstName := "Jo",
          lastName := "Doe", role := "buyer", phone := "" } = true ∧
    DB.getByEmail DB.empty "a@b.com" = none ∧
    (createUser DB.empty false 0
        { email := "a@b.com", password := "password1", firstName := "Jo",
          lastName := "Doe", role := "buyer", phone := "" }).result =
      .error .internal ∧
    (createUser DB.empty false 0
        { email := "a@b.com", password := "password1", firstName := "Jo",
          lastName := "Doe", role := "buyer", phone := "" }).db = DB.empty :=
  ⟨by decide, by decide, by decide, by decide⟩

/-- C8 failing input:  The three role vocabularies of the code
disagree: validation accepts `"buyer"`, which is outside the model's closed
enumeration; validation rejects `"gamer"`, which is inside it; the
migration's enum stores `"su-admin"`, which is outside the model's
enumeration, while the model constant `RoleSuperAdmin` (`"super_admin"`) is
not a value the schema accepts — and the persistence layer will output a
row whose role is `"su-admin"`. -/
theorem role_enumerations_disagree :
    validateCreateUserRequest
        { email := "c@d.ef", password := "password1", firstName := "Jo",
          lastName := "Doe", role := "buyer", phone := "" } = true ∧
    ¬("buyer" ∈ modelUserRoles) ∧
    validateCreateUserRequest
        { email := "c@d.ef", password := "password1", firstName := "Jo",
          lastName := "Doe", role := RoleGamer, phone := "" } = false ∧
    RoleGamer ∈ modelUserRoles ∧
    ¬(RoleSuperAdmin ∈ dbUserRoles) ∧
    "su-admin" ∈ dbUserRoles ∧ ¬("su-admin" ∈ modelUserRoles) ∧
    DB.repoCreate DB.empty "c@d.ef" "hash" "Jo" "Doe" "su-admin" none =
      .ok (insertedRow DB.empty "c@d.ef" "hash" "Jo" "Doe" "su-admin" none,
        { users := [insertedRow DB.empty "c@d.ef" "hash" "Jo" "Doe" "su-admin" none],
          nextId := 1, clock := 1 }) :=
  ⟨by decide, by decide, by decide, by decide, by decide, by decide, by decide,
    by decide⟩

/-! ### C7 — listing -/

/-- The SQL filter accepts a row exactly when every present filter matches
the corresponding column and absent filters match anything. -/
theorem matchesFilters_eq_true_iff (role status : Option String) (u : User) :
    matchesFilters role status u = true ↔
      (∀ r, role = some r → u.role = r) ∧ (∀ s, status = some s → u.status = s) := by
  cases role <;> cases status <;> simp [matchesFilters]

/-- C7 witness data: three users with distinct creation times and mixed
roles; listing the gamers, second page of size one. -/
def dbC7 : DB :=
  { users :=
      [{ id := 1, email := "p@q.rs", passwordHash := "h1", firstName := "Aa",
         lastName := "Bb", role := "gamer", status := "active", avatarURL := none,
         phone := none, createdAt := 1, updatedAt := 1 },
       { id := 2, email := "t@u.vw", passwordHash := "h2", firstName := "Cc",
         lastName := "Dd", role := "admin", status := "inactive", avatarURL := none,
         phone := none, createdAt := 2, updatedAt := 2 },
       { id := 3, email := "x@y.za", passwordHash := "h3", firstName := "Ee",
         lastName := "Ff", role := "gamer", status := "active", avatarURL := none,
         phone := none, createdAt := 3, updatedAt := 3 }],
    nextId := 4, clock := 4 }

end GameStore
